import Mathlib

/-!
Verification of the posts-dashboard client in `src/src/App.jsx` (the
authenticated variant, source lines 259-784).  The component's pure logic -
token extraction, sorting and aggregation of the cached post list, date
parsing/formatting, and the state transitions performed by each event
handler - is embedded as executable Lean definitions.  Network effects are
made explicit: every handler returns the list of HTTP requests it issues
together with the successor state, and the response each `fetch` would
deliver is passed in as an argument.
-/

namespace PostsApp

/-! ## Strings: JavaScript truthiness and trimming

For string-valued data `!value` is true exactly when the string is empty, so
an absent JSON string field and an empty one are indistinguishable to the
component; both are modelled as `""`. -/

/-- Embedding of `String.prototype.trim`: drop leading and trailing
whitespace (space, tab, CR, LF - the whitespace the application's inputs can
contain). -/
def jsTrim (s : String) : String :=
  String.mk (((s.data.dropWhile Char.isWhitespace).reverse.dropWhile Char.isWhitespace).reverse)

/-! ## Dates

`new Date(value)` is modelled for the ISO 8601 date-time strings the Laravel
API emits (`YYYY-MM-DD`, optionally `THH:MM`, `THH:MM:SS` or
`THH:MM:SS.ffffff`, optionally a trailing `Z`; other, engine-specific
parseable formats are outside the model).  The component only ever compares
date values or tests them for validity, never uses the absolute magnitude of
a timestamp, so `getTime()` is modelled by an encoding of the date-time
fields that is order-isomorphic to the chronological (epoch-milliseconds)
order: parse success/failure, equality and order agree with JavaScript on
the modelled grammar. -/

/-- Numeric value of a run of decimal digit characters. -/
def digitsVal (cs : List Char) : Nat :=
  cs.foldl (fun a c => 10 * a + (c.toNat - 48)) 0

/-- Read exactly `n` decimal digits, returning their value and the rest. -/
def readDigits : Nat → List Char → Option (Nat × List Char)
  | 0, cs => some (0, cs)
  | n + 1, c :: cs =>
      if c.isDigit then
        match readDigits n cs with
        | some (v, rest) => some ((c.toNat - 48) * 10 ^ n + v, rest)
        | none => none
      else none
  | _ + 1, [] => none

/-- Consume one expected character. -/
def expectChar (c : Char) : List Char → Option (List Char)
  | x :: rest => if x = c then some rest else none
  | [] => none

/-- Days in a month, with the Gregorian leap-year rule. -/
def daysInMonth (y m : Nat) : Nat :=
  if m = 2 then
    if y % 4 = 0 ∧ (y % 100 ≠ 0 ∨ y % 400 = 0) then 29 else 28
  else if m = 4 ∨ m = 6 ∨ m = 9 ∨ m = 11 then 30 else 31

/-- Read a fractional-seconds part (one or more digits), as milliseconds
(JavaScript keeps millisecond precision and truncates further digits). -/
def readFrac (cs : List Char) : Option (Nat × List Char) :=
  let digs := cs.takeWhile Char.isDigit
  if digs.isEmpty then none
  else
    let first3 := digs.take 3
    some (digitsVal first3 * 10 ^ (3 - first3.length), cs.dropWhile Char.isDigit)

/-- Read `HH:MM`, `HH:MM:SS` or `HH:MM:SS.fff`, returning
`(hour, minute, second, millisecond, rest)`. -/
def readTime (cs : List Char) : Option (Nat × Nat × Nat × Nat × List Char) := do
  let (h, cs1) ← readDigits 2 cs
  let cs2 ← expectChar ':' cs1
  let (mi, cs3) ← readDigits 2 cs2
  match expectChar ':' cs3 with
  | none => pure (h, mi, 0, 0, cs3)
  | some cs4 => do
      let (sec, cs5) ← readDigits 2 cs4
      match cs5 with
      | '.' :: cs6 => do
          let (ms, cs7) ← readFrac cs6
          pure (h, mi, sec, ms, cs7)
      | _ => pure (h, mi, sec, 0, cs5)

/-- Mixed-radix encoding of a date-time; each radix exceeds its field's
largest value, so the encoding is strictly monotone in the lexicographic
(that is, chronological) order of the fields. -/
def encodeDate (y m d h mi s ms : Nat) : Int :=
  ((((((((y * 13 + m) * 32 + d) * 24 + h) * 60 + mi) * 60 + s) * 1000 + ms : Nat) : Int))

/-- Embedding of `new Date(value).getTime()`: `some` of the (order-encoded)
timestamp for a valid date-time string, `none` where JavaScript yields
`NaN` (an invalid date). -/
def parseDate (s : String) : Option Int := do
  let (y, cs1) ← readDigits 4 s.data
  let cs2 ← expectChar '-' cs1
  let (m, cs3) ← readDigits 2 cs2
  let cs4 ← expectChar '-' cs3
  let (d, cs5) ← readDigits 2 cs4
  if m < 1 ∨ 12 < m ∨ d < 1 ∨ daysInMonth y m < d then none
  else
    match cs5 with
    | [] => pure (encodeDate y m d 0 0 0 0)
    | ['Z'] => pure (encodeDate y m d 0 0 0 0)
    | 'T' :: rest => do
        let (h, mi, sec, ms, rest2) ← readTime rest
        if 23 < h ∨ 59 < mi ∨ 59 < sec then none
        else
          match rest2 with
          | [] => pure (encodeDate y m d h mi sec ms)
          | ['Z'] => pure (encodeDate y m d h mi sec ms)
          | _ => none
    | _ => none

/-- English month abbreviation, as `Intl.DateTimeFormat` with
`dateStyle: medium` in the `en-US` locale renders it. -/
def monthName : Nat → String
  | 1 => "Jan"
  | 2 => "Feb"
  | 3 => "Mar"
  | 4 => "Apr"
  | 5 => "May"
  | 6 => "Jun"
  | 7 => "Jul"
  | 8 => "Aug"
  | 9 => "Sep"
  | 10 => "Oct"
  | 11 => "Nov"
  | _ => "Dec"

/-- Zero-pad a number below 100 to two digits. -/
def pad2 (n : Nat) : String :=
  if n < 10 then "0" ++ toString n else toString n

/-- Rendering of a valid timestamp by `Intl.DateTimeFormat` with
`en-US`, `dateStyle: medium`, `timeStyle: short`
(for example `Jan 1, 2024, 12:00 AM`), decoding the mixed-radix encoding
back into its fields. -/
def renderDate (t : Int) : String :=
  let totalSec := t.toNat / 1000
  let totalMin := totalSec / 60
  let mi := totalMin % 60
  let totalH := totalMin / 60
  let h := totalH % 24
  let totalD := totalH / 24
  let d := totalD % 32
  let totalM := totalD / 32
  let m := totalM % 13
  let y := totalM / 13
  let h12 := if h % 12 = 0 then 12 else h % 12
  let ampm := if h < 12 then "AM" else "PM"
  monthName m ++ " " ++ toString d ++ ", " ++ toString y ++ ", " ++
    toString h12 ++ ":" ++ pad2 mi ++ " " ++ ampm

/-- Embedding of `formatDate` (source lines 542-550): a falsy (empty) value
renders as a dash, an unparseable value is returned unchanged, a valid one
is rendered by the `Intl` formatter. -/
def formatDate (value : String) : String :=
  if value = "" then "-"
  else
    match parseDate value with
    | none => value
    | some t => renderDate t

/-! ## Data model -/

/-- A post record as cached by the client; the two date fields hold the raw
strings the API delivered. -/
structure Post where
  id : Nat
  title : String
  description : String
  created_at : String
  updated_at : String
deriving DecidableEq

/-- The user profile delivered by `GET /auth/me`, restricted to the fields
the component reads. -/
structure User where
  name : String
  email : String
deriving DecidableEq

/-- The post form buffer (`form` state hook). -/
structure PostForm where
  title : String
  description : String
deriving DecidableEq

/-- The auth form buffer (`authForm` state hook). -/
structure AuthForm where
  name : String
  email : String
  password : String
  passwordConfirmation : String
deriving DecidableEq

/-- The two auth panel modes. -/
inductive AuthMode where
  | login
  | register
deriving DecidableEq

/-- A login/register response payload, restricted to the fields the client
reads.  String fields use `""` for absent (JavaScript truthiness cannot tell
the two apart); `errors` is the flattened list of field-level messages
(`Object.values(data.errors).flat()`). -/
structure AuthPayload where
  access_token : String
  token : String
  data_access_token : String
  message : String
  error : String
  errors : List String
deriving DecidableEq

/-- An HTTP request issued by the component, carrying the bearer token it
was sent with where one is attached. -/
inductive Request where
  | listPosts (token : String)
  | createPost (token title description : String)
  | updatePost (token : String) (id : Nat) (title description : String)
  | deletePost (token : String) (id : Nat)
  | login (email password : String)
  | register (name email password passwordConfirmation : String)
  | logout (token : String)
  | me (token : String)
deriving DecidableEq

/-- Outcome of a fetch for the post list: an HTTP reply with a status and a
parsed JSON body, or a rejected promise carrying an error message. -/
inductive ListResponse where
  | reply (status : Nat) (body : List Post)
  | networkError (msg : String)
deriving DecidableEq

/-- Outcome of a fetch whose body the component ignores (create, update,
delete, logout). -/
inductive SimpleResponse where
  | reply (status : Nat)
  | networkError (msg : String)
deriving DecidableEq

/-- Outcome of the `GET /auth/me` fetch. -/
inductive MeResponse where
  | reply (status : Nat) (body : User)
  | networkError (msg : String)
deriving DecidableEq

/-- Outcome of a login/register fetch. -/
inductive AuthResponse where
  | reply (status : Nat) (body : AuthPayload)
  | networkError (msg : String)
deriving DecidableEq

/-- `response.ok`: status in the 2xx range. -/
def isOk (status : Nat) : Bool :=
  200 ≤ status && status < 300

/-- The component's state hooks, plus the token persisted in
`localStorage` under the fixed key (`storedToken`, `""` for absent). -/
structure AppState where
  posts : List Post
  isLoading : Bool
  error : String
  authError : String
  authLoading : Bool
  authMode : AuthMode
  authForm : AuthForm
  authToken : String
  storedToken : String
  authUser : Option User
  editingId : Option Nat
  form : PostForm
  isSaving : Bool
  deletingId : Option Nat
deriving DecidableEq

/-- `isAuthed = Boolean(authToken)` (source line 289). -/
def isAuthed (s : AppState) : Bool :=
  s.authToken ≠ ""

/-- The timestamp a post's `created_at` parses to (`0` for an invalid date;
only ever used where parseability is known). -/
def createdTs (p : Post) : Int :=
  (parseDate p.created_at).getD 0

/-- The timestamp a post's `updated_at` parses to (`0` for an invalid
date). -/
def updatedTs (p : Post) : Int :=
  (parseDate p.updated_at).getD 0

/-- The order the sort comparator
`(a, b) => new Date(b.created_at) - new Date(a.created_at)` induces:
`a` precedes `b` when the comparator is non-positive, that is when `b`'s
parsed `created_at` is at most `a`'s. -/
def createdGe (a b : Post) : Prop :=
  createdTs b ≤ createdTs a

instance : DecidableRel createdGe :=
  fun a b => inferInstanceAs (Decidable (createdTs b ≤ createdTs a))

instance : IsTotal Post createdGe :=
  ⟨fun a b => le_total (createdTs b) (createdTs a)⟩

instance : IsTrans Post createdGe :=
  ⟨fun _ _ _ hab hbc => le_trans hbc hab⟩

/-- Embedding of the `sortedPosts` memo (source lines 291-293):
`[...posts].sort((a, b) => new Date(b.created_at) - new Date(a.created_at))`.
ECMAScript guarantees of `Array.prototype.sort` - the result is a
permutation, and is sorted by the comparator whenever the comparator is
consistent - are realised by a concrete (stable) sort on the comparator's
order; for lists containing an unparseable date the JavaScript comparator
returns `NaN` (coerced to `+0`) and is inconsistent, so the resulting order
is implementation-defined and this embedding fixes one of the permitted
orders. -/
def sortedPosts (posts : List Post) : List Post :=
  posts.insertionSort createdGe

/-- `new Date(post.updated_at) > new Date(latest.updated_at)` (source line
299): `Date` comparison goes through `valueOf`, and every comparison with
`NaN` is false. -/
def updatedLater (post latest : Post) : Bool :=
  match parseDate post.updated_at, parseDate latest.updated_at with
  | some tp, some tl => tl < tp
  | _, _ => false

/-- The reducer of the `latestUpdated` fold (source lines 297-300): keep
the accumulator unless the next post's `updated_at` is strictly later. -/
def latestStep (latest : Option Post) (post : Post) : Option Post :=
  match latest with
  | none => some post
  | some l => if updatedLater post l then some post else some l

/-- Embedding of the `latestUpdated` memo (source lines 295-301): `null`
for an empty list, else a left fold from `null` over the cached list. -/
def latestUpdated (posts : List Post) : Option Post :=
  if posts.length = 0 then none
  else posts.foldl latestStep none

/-- Embedding of `extractToken` (source lines 391-394):
`payload.access_token || payload.token || payload?.data?.access_token || ''`,
the first truthy (non-empty) field wins. -/
def extractToken (p : AuthPayload) : String :=
  if p.access_token ≠ "" then p.access_token
  else if p.token ≠ "" then p.token
  else p.data_access_token

/-- Embedding of `clearAuth` (source lines 340-344): remove the persisted
token, clear the in-memory token and the user profile. -/
def clearAuth (s : AppState) : AppState :=
  { s with storedToken := "", authToken := "", authUser := none }

/-- The signed-out branch of the `useEffect` on `authToken` (source lines
365-374): with an empty token the cached posts are dropped and loading
ends.  It runs after any update that empties the token, so it is applied
inline wherever `clearAuth` is called. -/
def signedOutEffect (s : AppState) : AppState :=
  { s with posts := [], isLoading := false }

/-- Whether `pat` occurs at the start of `cs`. -/
def startsWithList : List Char → List Char → Bool
  | _, [] => true
  | [], _ :: _ => false
  | c :: cs, p :: ps => c = p && startsWithList cs ps

/-- Whether `pat` occurs anywhere in `cs` (`String.prototype.includes`). -/
def includesList : List Char → List Char → Bool
  | [], pat => pat.isEmpty
  | c :: cs, pat => startsWithList (c :: cs) pat || includesList cs pat

/-- `err.message.includes('Session expired')` (source line 332). -/
def mentionsSessionExpired (msg : String) : Bool :=
  includesList msg.data (("Session expired").data)

/-! ## Event handlers

Each handler is embedded as a pure function from the current state (and the
response the network would deliver) to the list of HTTP requests it issues
and the successor state.  The handlers run atomically - the component is
single-threaded and no interleaving of in-flight requests is modelled. -/

/-- Embedding of `fetchPosts` (source lines 308-338): short-circuit without
a token; on 2xx replace the cached list; a 401 raises the session-expired
error, whose message routes the catch block into `clearAuth`. -/
def fetchPostsRun (s : AppState) (resp : ListResponse) : List Request × AppState :=
  if s.authToken = "" then
    ([], { s with isLoading := false, error := "Sign in to load posts." })
  else
    let s0 := { s with isLoading := true, error := "" }
    match resp with
    | .reply status body =>
        if isOk status then
          ([Request.listPosts s.authToken], { s0 with posts := body, isLoading := false })
        else
          let msg := if status = 401 then "Session expired. Please sign in again."
                     else "Failed to fetch posts."
          let s1 := { s0 with error := msg }
          let s2 := if mentionsSessionExpired msg then signedOutEffect (clearAuth s1) else s1
          ([Request.listPosts s.authToken], { s2 with isLoading := false })
    | .networkError msg =>
        let s1 := { s0 with error := msg }
        let s2 := if mentionsSessionExpired msg then signedOutEffect (clearAuth s1) else s1
        ([Request.listPosts s.authToken], { s2 with isLoading := false })

/-- Embedding of `fetchMe` (source lines 346-363): resolve the profile on a
2xx, clear the session on any other outcome. -/
def fetchMeRun (s : AppState) (resp : MeResponse) : List Request × AppState :=
  if s.authToken = "" then ([], s)
  else
    match resp with
    | .reply status body =>
        if isOk status then ([Request.me s.authToken], { s with authUser := some body })
        else ([Request.me s.authToken], signedOutEffect (clearAuth s))
    | .networkError _ => ([Request.me s.authToken], signedOutEffect (clearAuth s))

/-- The error-message extraction of the non-2xx auth branch (source lines
425-431): `data?.message`, else a string `data.error`, else the flattened
field errors joined by spaces, else a generic message. -/
def authErrorMessage (p : AuthPayload) : String :=
  if p.message ≠ "" then p.message
  else if p.error ≠ "" then p.error
  else if String.intercalate (" ") p.errors ≠ "" then String.intercalate (" ") p.errors
  else "Authentication failed."

/-- The pristine auth form buffer. -/
def emptyAuthForm : AuthForm :=
  { name := "", email := "", password := "", passwordConfirmation := "" }

/-- The pristine post form buffer. -/
def emptyPostForm : PostForm :=
  { title := "", description := "" }

/-- The request `handleAuthSubmit` issues, per mode (source lines 401-422). -/
def authRequest (s : AppState) : Request :=
  match s.authMode with
  | .register =>
      Request.register (jsTrim s.authForm.name) (jsTrim s.authForm.email)
        s.authForm.password s.authForm.passwordConfirmation
  | .login => Request.login (jsTrim s.authForm.email) s.authForm.password

/-- Embedding of `handleAuthSubmit` (source lines 396-451): POST the
credentials; on a non-2xx surface the extracted error message; on a 2xx
extract the token (an empty extraction is the hard no-token error), persist
it, hold it in memory and reset the auth form. -/
def handleAuthSubmitRun (s : AppState) (resp : AuthResponse) : List Request × AppState :=
  let s0 := { s with authLoading := true, authError := "" }
  match resp with
  | .networkError msg => ([authRequest s], { s0 with authError := msg, authLoading := false })
  | .reply status body =>
      if isOk status then
        let tok := extractToken body
        if tok = "" then
          ([authRequest s],
           { s0 with authError := "No token returned from the API.", authLoading := false })
        else
          ([authRequest s],
           { s0 with
               storedToken := tok, authToken := tok,
               authForm := emptyAuthForm, authLoading := false })
      else
        ([authRequest s], { s0 with authError := authErrorMessage body, authLoading := false })

/-- Embedding of `handleLogout` (source lines 453-468): with no token
nothing happens; otherwise the logout POST is issued and - whatever its
outcome, which the `try`/`finally` never inspects - the session is cleared. -/
def handleLogoutRun (s : AppState) (_outcome : SimpleResponse) : List Request × AppState :=
  if s.authToken = "" then ([], s)
  else
    let s0 := { s with authLoading := true, authError := "" }
    ([Request.logout s.authToken], signedOutEffect (clearAuth { s0 with authLoading := false }))

/-- `resetForm` (source lines 303-306). -/
def resetForm (s : AppState) : AppState :=
  { s with form := emptyPostForm, editingId := none }

/-- The request `handleSubmit` issues: PUT when editing, POST otherwise,
with trimmed fields (source lines 483-496). -/
def submitRequest (s : AppState) : Request :=
  match s.editingId with
  | some id =>
      Request.updatePost s.authToken id (jsTrim s.form.title) (jsTrim s.form.description)
  | none => Request.createPost s.authToken (jsTrim s.form.title) (jsTrim s.form.description)

/-- Embedding of `handleSubmit` (source lines 470-507): an empty trimmed
title or description is a validation error before anything else; an empty
token is the sign-in validation error; otherwise the create/update request
goes out and a 2xx resets the form and re-fetches the list via
`fetchPosts`. -/
def handleSubmitRun (s : AppState) (resp : SimpleResponse) (listResp : ListResponse) :
    List Request × AppState :=
  if jsTrim s.form.title = "" ∨ jsTrim s.form.description = "" then
    ([], { s with error := "Title and description are required." })
  else if s.authToken = "" then
    ([], { s with error := "Sign in to create or edit posts." })
  else
    let s0 := { s with isSaving := true, error := "" }
    match resp with
    | .reply status =>
        if isOk status then
          let next := fetchPostsRun (resetForm s0) listResp
          (submitRequest s :: next.1, { next.2 with isSaving := false })
        else
          ([submitRequest s],
           { s0 with
               error := if s0.editingId.isSome then "Failed to update post."
                        else "Failed to create post.",
               isSaving := false })
    | .networkError msg => ([submitRequest s], { s0 with error := msg, isSaving := false })

/-- Embedding of `handleDelete` (source lines 518-540): a declined
confirmation does nothing; otherwise the DELETE request goes out and a 2xx
drops every cached post with the targeted id (no re-fetch). -/
def handleDeleteRun (s : AppState) (postId : Nat) (confirmed : Bool) (resp : SimpleResponse) :
    List Request × AppState :=
  if ¬ confirmed then ([], s)
  else
    let s0 := { s with deletingId := some postId, error := "" }
    match resp with
    | .reply status =>
        if isOk status then
          ([Request.deletePost s.authToken postId],
           { s0 with posts := s0.posts.filter (fun p => p.id ≠ postId), deletingId := none })
        else
          ([Request.deletePost s.authToken postId],
           { s0 with error := "Failed to delete post.", deletingId := none })
    | .networkError msg =>
        ([Request.deletePost s.authToken postId], { s0 with error := msg, deletingId := none })

/-- `handleEdit` (source lines 509-512). -/
def handleEditRun (s : AppState) (p : Post) : AppState :=
  { s with editingId := some p.id, form := { title := p.title, description := p.description } }

/-- `handleAuthMode` (source lines 386-389). -/
def handleAuthModeRun (s : AppState) (mode : AuthMode) : AppState :=
  { s with authMode := mode, authError := "" }

/-- The component's initial state (source lines 267-286): empty caches and
buffers, the token read back from `localStorage`. -/
def initState (stored : String) : AppState :=
  { posts := [], isLoading := true, error := "", authError := "", authLoading := false,
    authMode := AuthMode.login, authForm := emptyAuthForm, authToken := stored,
    storedToken := stored, authUser := none, editingId := none, form := emptyPostForm,
    isSaving := false, deletingId := none }

/-! ## The event step relation -/

/-- One atomic UI event: a handler invocation together with the response
its fetches deliver, or a field edit, or the signed-out branch of the
`authToken` effect. -/
inductive Step : AppState → AppState → Prop where
  | signedOut (s : AppState) (h : s.authToken = "") : Step s (signedOutEffect s)
  | fetchPosts (s : AppState) (resp : ListResponse) : Step s (fetchPostsRun s resp).2
  | fetchMe (s : AppState) (resp : MeResponse) : Step s (fetchMeRun s resp).2
  | authSubmit (s : AppState) (resp : AuthResponse) : Step s (handleAuthSubmitRun s resp).2
  | logout (s : AppState) (outcome : SimpleResponse) : Step s (handleLogoutRun s outcome).2
  | submit (s : AppState) (resp : SimpleResponse) (listResp : ListResponse) :
      Step s (handleSubmitRun s resp listResp).2
  | delete (s : AppState) (postId : Nat) (confirmed : Bool) (resp : SimpleResponse) :
      Step s (handleDeleteRun s postId confirmed resp).2
  | edit (s : AppState) (p : Post) : Step s (handleEditRun s p)
  | cancelEdit (s : AppState) : Step s (resetForm s)
  | authModeSwitch (s : AppState) (mode : AuthMode) : Step s (handleAuthModeRun s mode)
  | changeTitle (s : AppState) (v : String) :
      Step s { s with form := { s.form with title := v } }
  | changeDescription (s : AppState) (v : String) :
      Step s { s with form := { s.form with description := v } }
  | authChangeName (s : AppState) (v : String) :
      Step s { s with authForm := { s.authForm with name := v } }
  | authChangeEmail (s : AppState) (v : String) :
      Step s { s with authForm := { s.authForm with email := v } }
  | authChangePassword (s : AppState) (v : String) :
      Step s { s with authForm := { s.authForm with password := v } }
  | authChangeConfirmation (s : AppState) (v : String) :
      Step s { s with authForm := { s.authForm with passwordConfirmation := v } }

/-- States the component can be in: the initial state for some persisted
token, closed under event steps. -/
inductive Reachable : AppState → Prop where
  | init (stored : String) : Reachable (initState stored)
  | step {s t : AppState} : Reachable s → Step s t → Reachable t

/-- The signed-out invariant: an empty token means an empty post cache. -/
def SignedOutEmpty (s : AppState) : Prop :=
  s.authToken = "" → s.posts = []

/-! ## Concrete sample data, for exercising the theorems -/

/-- A sample cached post. -/
def demoPost1 : Post :=
  { id := 1, title := "First", description := "alpha",
    created_at := "2024-05-01T10:00:00Z", updated_at := "2024-05-02T09:00:00Z" }

/-- A second sample cached post, created later but updated earlier. -/
def demoPost2 : Post :=
  { id := 2, title := "Second", description := "beta",
    created_at := "2024-06-01T10:00:00Z", updated_at := "2024-05-01T08:00:00Z" }

/-- A sample signed-in state with two cached posts and a filled post form. -/
def demoState : AppState :=
  { initState ("tok123") with
      posts := [demoPost1, demoPost2], isLoading := false,
      form := { title := " A title ", description := "Some text" } }

/-- A sample auth payload carrying the token only in the nested
`data.access_token` position. -/
def demoNestedPayload : AuthPayload :=
  { access_token := "", token := "", data_access_token := "nested-tok",
    message := "", error := "", errors := [] }

end PostsApp

/-!
## Theorems

One theorem per claim of the specification, each with a closed witness
instantiating its hypotheses at concrete inputs, and closed counterexamples
where the claim as stated fails on the code.
-/

namespace PostsApp

/-- C1 (counterexample): the claim that every delete attempt made with an
empty held token performs zero network calls fails - `handleDelete` never
inspects the token, so a confirmed delete from a tokenless state issues the
DELETE request (with an empty bearer token) instead of short-circuiting. -/
theorem delete_without_token_calls_network :
    (initState ("")).authToken = "" ∧
    (handleDeleteRun (initState ("")) 7 true (SimpleResponse.reply 204)).1 =
      [Request.deletePost ("") 7] := by
  decide

/-- C1 (amended): with an empty held token, every create or update attempt
performs zero network calls and sets a local validation error message;
delete attempts do not check the token - a declined delete performs zero
network calls and leaves the state unchanged, while a confirmed delete
issues its single DELETE request carrying the empty bearer token. -/
theorem no_token_short_circuit (s : AppState) (resp : SimpleResponse)
    (listResp : ListResponse) (pid : Nat) (h : s.authToken = "") :
    ((handleSubmitRun s resp listResp).1 = [] ∧
     ((handleSubmitRun s resp listResp).2.error = "Title and description are required." ∨
      (handleSubmitRun s resp listResp).2.error = "Sign in to create or edit posts.")) ∧
    (handleDeleteRun s pid false resp = ([], s)) ∧
    ((handleDeleteRun s pid true resp).1 = [Request.deletePost ("") pid]) := by
  refine ⟨?_, by simp [handleDeleteRun], ?_⟩
  · by_cases hv : jsTrim s.form.title = "" ∨ jsTrim s.form.description = ""
    · simp [handleSubmitRun, hv]
    · simp [handleSubmitRun, hv, h]
  · cases resp with
    | reply status =>
        simp only [handleDeleteRun, h]
        norm_num
        split <;> simp
    | networkError msg => simp [handleDeleteRun, h]

/-- C1 witness: the amended claim at a concrete tokenless state. -/
theorem no_token_short_circuit_witness :
    (initState ("")).authToken = "" ∧
    (((handleSubmitRun (initState ("")) (SimpleResponse.reply 201)
        (ListResponse.reply 200 [])).1 = [] ∧
      ((handleSubmitRun (initState ("")) (SimpleResponse.reply 201)
          (ListResponse.reply 200 [])).2.error = "Title and description are required." ∨
       (handleSubmitRun (initState ("")) (SimpleResponse.reply 201)
          (ListResponse.reply 200 [])).2.error = "Sign in to create or edit posts.")) ∧
     (handleDeleteRun (initState ("")) 7 false (SimpleResponse.reply 201) =
        ([], initState (""))) ∧
     ((handleDeleteRun (initState ("")) 7 true (SimpleResponse.reply 201)).1 =
        [Request.deletePost ("") 7])) :=
  ⟨by decide, no_token_short_circuit (initState ("")) (SimpleResponse.reply 201)
      (ListResponse.reply 200 []) 7 (by decide)⟩

/-- C2: on a 2xx login/register response the session token is taken from
`access_token` first, then `token`, then `data.access_token`; a payload
carrying only the nested field still yields an authenticated session
(token held and persisted); when all three are absent the hard
no-token-returned error is raised and no session is established. -/
theorem auth_token_extraction_order (s : AppState) (status : Nat) (p : AuthPayload)
    (hok : isOk status = true) :
    (p.access_token ≠ "" →
       (handleAuthSubmitRun s (AuthResponse.reply status p)).2.authToken = p.access_token) ∧
    (p.access_token = "" → p.token ≠ "" →
       (handleAuthSubmitRun s (AuthResponse.reply status p)).2.authToken = p.token) ∧
    (p.access_token = "" → p.token = "" → p.data_access_token ≠ "" →
       (handleAuthSubmitRun s (AuthResponse.reply status p)).2.authToken = p.data_access_token ∧
       (handleAuthSubmitRun s (AuthResponse.reply status p)).2.storedToken = p.data_access_token ∧
       isAuthed (handleAuthSubmitRun s (AuthResponse.reply status p)).2 = true) ∧
    (p.access_token = "" → p.token = "" → p.data_access_token = "" →
       (handleAuthSubmitRun s (AuthResponse.reply status p)).2.authError =
         "No token returned from the API." ∧
       (handleAuthSubmitRun s (AuthResponse.reply status p)).2.authToken = s.authToken ∧
       (handleAuthSubmitRun s (AuthResponse.reply status p)).2.storedToken = s.storedToken) := by
  refine ⟨?_, ?_, ?_, ?_⟩
  · intro h1
    simp [handleAuthSubmitRun, hok, extractToken, h1]
  · intro h1 h2
    simp [handleAuthSubmitRun, hok, extractToken, h1, h2]
  · intro h1 h2 h3
    simp [handleAuthSubmitRun, hok, extractToken, isAuthed, h1, h2, h3]
  · intro h1 h2 h3
    simp [handleAuthSubmitRun, hok, extractToken, h1, h2, h3]

/-- C2 witness: a 200 reply whose only token is `data.access_token`
authenticates a fresh signed-out state. -/
theorem auth_token_extraction_order_witness :
    (isOk 200 = true ∧ demoNestedPayload.access_token = "" ∧ demoNestedPayload.token = "" ∧
     demoNestedPayload.data_access_token ≠ "") ∧
    ((handleAuthSubmitRun (initState ("")) (AuthResponse.reply 200 demoNestedPayload)).2.authToken
        = demoNestedPayload.data_access_token ∧
     (handleAuthSubmitRun (initState ("")) (AuthResponse.reply 200 demoNestedPayload)).2.storedToken
        = demoNestedPayload.data_access_token ∧
     isAuthed (handleAuthSubmitRun (initState ("")) (AuthResponse.reply 200 demoNestedPayload)).2
        = true) :=
  ⟨⟨by decide, by decide, by decide, by decide⟩,
   (auth_token_extraction_order (initState ("")) 200 demoNestedPayload
      (by decide)).2.2.1 (by decide) (by decide) (by decide)⟩

/-- C3: a 401 on the list fetch clears the persisted token, the in-memory
token and the user profile and surfaces the session-expired message; any
other non-2xx reply surfaces the generic fetch-failure message and leaves
the session (and the cached posts) untouched. -/
theorem list_401_clears_session (s : AppState) (status : Nat) (body : List Post)
    (htok : s.authToken ≠ "") (hko : isOk status = false) :
    (status = 401 →
      (fetchPostsRun s (ListResponse.reply status body)).2.authToken = "" ∧
      (fetchPostsRun s (ListResponse.reply status body)).2.storedToken = "" ∧
      (fetchPostsRun s (ListResponse.reply status body)).2.authUser = none ∧
      (fetchPostsRun s (ListResponse.reply status body)).2.error =
        "Session expired. Please sign in again.") ∧
    (status ≠ 401 →
      (fetchPostsRun s (ListResponse.reply status body)).2.error = "Failed to fetch posts." ∧
      (fetchPostsRun s (ListResponse.reply status body)).2.authToken = s.authToken ∧
      (fetchPostsRun s (ListResponse.reply status body)).2.storedToken = s.storedToken ∧
      (fetchPostsRun s (ListResponse.reply status body)).2.authUser = s.authUser ∧
      (fetchPostsRun s (ListResponse.reply status body)).2.posts = s.posts) := by
  have h1 : mentionsSessionExpired ("Session expired. Please sign in again.") = true := by
    decide
  have h2 : mentionsSessionExpired ("Failed to fetch posts.") = false := by decide
  constructor
  · intro h401
    subst h401
    simp [fetchPostsRun, htok, hko, h1, signedOutEffect, clearAuth]
  · intro hne
    simp [fetchPostsRun, htok, hko, hne, h2]

/-- C3 witness: a 401 reply against the sample signed-in state. -/
theorem list_401_clears_session_witness :
    (demoState.authToken ≠ "" ∧ isOk 401 = false) ∧
    ((401 = 401 →
      (fetchPostsRun demoState (ListResponse.reply 401 [])).2.authToken = "" ∧
      (fetchPostsRun demoState (ListResponse.reply 401 [])).2.storedToken = "" ∧
      (fetchPostsRun demoState (ListResponse.reply 401 [])).2.authUser = none ∧
      (fetchPostsRun demoState (ListResponse.reply 401 [])).2.error =
        "Session expired. Please sign in again.") ∧
     (401 ≠ 401 →
      (fetchPostsRun demoState (ListResponse.reply 401 [])).2.error = "Failed to fetch posts." ∧
      (fetchPostsRun demoState (ListResponse.reply 401 [])).2.authToken = demoState.authToken ∧
      (fetchPostsRun demoState (ListResponse.reply 401 [])).2.storedToken =
        demoState.storedToken ∧
      (fetchPostsRun demoState (ListResponse.reply 401 [])).2.authUser = demoState.authUser ∧
      (fetchPostsRun demoState (ListResponse.reply 401 [])).2.posts = demoState.posts)) :=
  ⟨⟨by decide, by decide⟩, list_401_clears_session demoState 401 [] (by decide) (by decide)⟩

end PostsApp

namespace PostsApp

/-- C4: for a cached list whose `created_at` values all parse and are
pairwise distinct (as dates), the displayed list is a permutation of the
cache and is strictly descending in `created_at`. -/
theorem sortedPosts_strictly_descending (posts : List Post)
    (hps : ∀ p ∈ posts, (parseDate p.created_at).isSome)
    (hd : posts.Pairwise (fun a b => parseDate a.created_at ≠ parseDate b.created_at)) :
    (sortedPosts posts).Perm posts ∧
    (sortedPosts posts).Pairwise (fun a b => createdTs b < createdTs a) ∧
    (sortedPosts posts).Pairwise (fun a b => ∀ ta tb,
      parseDate a.created_at = some ta → parseDate b.created_at = some tb → tb < ta) := by
  have hperm : (sortedPosts posts).Perm posts := List.perm_insertionSort _ _
  have hsorted : (sortedPosts posts).Pairwise createdGe :=
    List.sorted_insertionSort createdGe posts
  have hd' : (sortedPosts posts).Pairwise
      (fun a b => parseDate a.created_at ≠ parseDate b.created_at) :=
    (List.Perm.pairwise_iff (fun h => Ne.symm h) hperm).mpr hd
  have hforall : (sortedPosts posts).Pairwise (fun a b => ∀ ta tb,
      parseDate a.created_at = some ta → parseDate b.created_at = some tb → tb < ta) := by
    refine (hsorted.and hd').imp ?_
    intro a b hab ta tb hta htb
    have hle : createdTs b ≤ createdTs a := hab.1
    have hne : parseDate a.created_at ≠ parseDate b.created_at := hab.2
    have hta' : createdTs a = ta := by simp [createdTs, hta]
    have htb' : createdTs b = tb := by simp [createdTs, htb]
    have htne : tb ≠ ta := by
      intro hcontra
      apply hne
      rw [hta, htb, hcontra]
    rw [hta', htb'] at hle
    exact lt_of_le_of_ne hle htne
  refine ⟨hperm, ?_, hforall⟩
  refine hforall.imp_of_mem ?_
  intro a b ha hb hab
  obtain ⟨ta, hta⟩ := Option.isSome_iff_exists.mp (hps a (hperm.mem_iff.mp ha))
  obtain ⟨tb, htb⟩ := Option.isSome_iff_exists.mp (hps b (hperm.mem_iff.mp hb))
  have := hab ta tb hta htb
  simpa [createdTs, hta, htb] using this

/-- C4 witness: the two sample posts, with distinct parseable creation
dates. -/
theorem sortedPosts_strictly_descending_witness :
    ((∀ p ∈ [demoPost1, demoPost2], (parseDate p.created_at).isSome) ∧
     ([demoPost1, demoPost2] : List Post).Pairwise
       (fun a b => parseDate a.created_at ≠ parseDate b.created_at)) ∧
    ((sortedPosts [demoPost1, demoPost2]).Perm [demoPost1, demoPost2] ∧
     (sortedPosts [demoPost1, demoPost2]).Pairwise (fun a b => createdTs b < createdTs a) ∧
     (sortedPosts [demoPost1, demoPost2]).Pairwise (fun a b => ∀ ta tb,
       parseDate a.created_at = some ta → parseDate b.created_at = some tb → tb < ta)) :=
  ⟨⟨by decide, by decide⟩,
   sortedPosts_strictly_descending [demoPost1, demoPost2] (by decide) (by decide)⟩

/-- Helper: on posts with parseable `updated_at`, the JavaScript `Date`
comparison `updatedLater` is the strict order of the parsed timestamps. -/
lemma updatedLater_iff (x y : Post) (hx : (parseDate x.updated_at).isSome)
    (hy : (parseDate y.updated_at).isSome) :
    updatedLater x y = decide (updatedTs y < updatedTs x) := by
  obtain ⟨tx, hxe⟩ := Option.isSome_iff_exists.mp hx
  obtain ⟨ty, hye⟩ := Option.isSome_iff_exists.mp hy
  simp [updatedLater, updatedTs, hxe, hye]

/-- Helper: the `latestUpdated` fold started on `a` yields the first
element of `a :: t` attaining the maximal `updated_at`, provided every
date parses: the result splits the list with everything strictly earlier
before it and nothing later anywhere. -/
lemma foldl_latestStep_spec (t : List Post) : ∀ a : Post,
    (∀ p ∈ a :: t, (parseDate p.updated_at).isSome) →
    ∃ m l₁ l₂, t.foldl latestStep (some a) = some m ∧
      a :: t = l₁ ++ m :: l₂ ∧
      (∀ p ∈ a :: t, updatedTs p ≤ updatedTs m) ∧
      (∀ p ∈ l₁, updatedTs p < updatedTs m) := by
  induction t with
  | nil =>
      intro a _
      refine ⟨a, [], [], rfl, rfl, ?_, by simp⟩
      intro p hp
      simp at hp
      simp [hp]
  | cons x xs ih =>
      intro a hps
      have hxa : updatedLater x a = decide (updatedTs a < updatedTs x) :=
        updatedLater_iff x a (hps x (by simp)) (hps a (by simp))
      by_cases hlt : updatedTs a < updatedTs x
      · have hstep : latestStep (some a) x = some x := by
          simp [latestStep, hxa, hlt]
        obtain ⟨m, l₁, l₂, hfold, hsplit, hmax, hstrict⟩ :=
          ih x (fun p hp => hps p (by simp at hp ⊢; tauto))
        have hxm : updatedTs x ≤ updatedTs m := hmax x (by simp)
        refine ⟨m, a :: l₁, l₂, ?_, ?_, ?_, ?_⟩
        · simpa [List.foldl, hstep] using hfold
        · simp [hsplit]
        · intro p hp
          rcases List.mem_cons.mp hp with h | h
          · subst h; exact le_of_lt (lt_of_lt_of_le hlt hxm)
          · exact hmax p h
        · intro p hp
          rcases List.mem_cons.mp hp with h | h
          · subst h; exact lt_of_lt_of_le hlt hxm
          · exact hstrict p h
      · have hstep : latestStep (some a) x = some a := by
          simp [latestStep, hxa, hlt]
        have hxa' : updatedTs x ≤ updatedTs a := le_of_not_lt hlt
        obtain ⟨m, l₁, l₂, hfold, hsplit, hmax, hstrict⟩ :=
          ih a (fun p hp => hps p (by simp at hp ⊢; tauto))
        cases l₁ with
        | nil =>
            simp at hsplit
            obtain ⟨hma, hl₂⟩ := hsplit
            subst hma
            subst hl₂
            refine ⟨a, [], x :: xs, ?_, rfl, ?_, by simp⟩
            · simpa [List.foldl, hstep] using hfold
            · intro p hp
              rcases List.mem_cons.mp hp with h | h
              · subst h; exact le_refl _
              · rcases List.mem_cons.mp h with h2 | h2
                · subst h2; exact hxa'
                · exact hmax p (by simp [h2])
        | cons a₀ l₁' =>
            simp at hsplit
            obtain ⟨ha₀, hxs⟩ := hsplit
            subst ha₀
            subst hxs
            have ham : updatedTs a < updatedTs m := hstrict a (by simp)
            refine ⟨m, a :: x :: l₁', l₂, ?_, rfl, ?_, ?_⟩
            · simpa [List.foldl, hstep] using hfold
            · intro p hp
              rcases List.mem_cons.mp hp with h | h
              · subst h; exact le_of_lt ham
              · rcases List.mem_cons.mp h with h2 | h2
                · subst h2; exact le_trans hxa' (le_of_lt ham)
                · exact hmax p (by simp [h2])
            · intro p hp
              rcases List.mem_cons.mp hp with h | h
              · subst h; exact ham
              · rcases List.mem_cons.mp h with h2 | h2
                · subst h2; exact lt_of_le_of_lt hxa' ham
                · exact hstrict p (by simp [h2])

/-- C5: the derived last-updated value is `none` for an empty cache, and
for a non-empty cache (with parseable dates) it is a cached post of
maximal `updated_at` - the first such post, everything before it in the
list being strictly earlier (the left-fold tie-breaking). -/
theorem latestUpdated_first_max (posts : List Post)
    (hne : posts ≠ [])
    (hps : ∀ p ∈ posts, (parseDate p.updated_at).isSome) :
    latestUpdated ([] : List Post) = none ∧
    ∃ m l₁ l₂, latestUpdated posts = some m ∧ posts = l₁ ++ m :: l₂ ∧
      (∀ p ∈ posts, updatedTs p ≤ updatedTs m) ∧
      (∀ p ∈ l₁, updatedTs p < updatedTs m) := by
  refine ⟨rfl, ?_⟩
  obtain ⟨a, t, rfl⟩ : ∃ a t, posts = a :: t := by
    cases posts with
    | nil => exact absurd rfl hne
    | cons a t => exact ⟨a, t, rfl⟩
  obtain ⟨m, l₁, l₂, hfold, hsplit, hmax, hstrict⟩ := foldl_latestStep_spec t a hps
  refine ⟨m, l₁, l₂, ?_, hsplit, hmax, hstrict⟩
  simpa [latestUpdated, List.foldl, latestStep] using hfold

/-- C5 witness: of the two sample posts the first was updated later, and
is returned. -/
theorem latestUpdated_first_max_witness :
    ([demoPost1, demoPost2] ≠ ([] : List Post) ∧
     ∀ p ∈ [demoPost1, demoPost2], (parseDate p.updated_at).isSome) ∧
    (latestUpdated ([] : List Post) = none ∧
     ∃ m l₁ l₂, latestUpdated [demoPost1, demoPost2] = some m ∧
       [demoPost1, demoPost2] = l₁ ++ m :: l₂ ∧
       (∀ p ∈ [demoPost1, demoPost2], updatedTs p ≤ updatedTs m) ∧
       (∀ p ∈ l₁, updatedTs p < updatedTs m)) :=
  ⟨⟨by decide, by decide⟩,
   latestUpdated_first_max [demoPost1, demoPost2] (by decide) (by decide)⟩

end PostsApp

namespace PostsApp

/-- C6 (counterexample): the empty string is unparseable as a date
(`new Date('')` is invalid), yet `formatDate` renders it as a dash rather
than returning the raw input unchanged - the falsy check runs before the
validity check. -/
theorem formatDate_empty_not_identity :
    parseDate ("") = none ∧ formatDate ("") = "-" ∧ formatDate ("") ≠ ("") := by
  decide

/-- C6 (amended): every non-empty date string that fails to parse is
returned by `formatDate` unchanged (no zero-padding or any other
transformation); the empty (falsy) value renders as a dash. -/
theorem formatDate_unparseable_identity (s : String) (hne : s ≠ "")
    (hp : parseDate s = none) :
    formatDate s = s := by
  simp [formatDate, hne, hp]

/-- C6 witness: a concrete unparseable string passes through unchanged. -/
theorem formatDate_unparseable_identity_witness :
    ("not-a-date" ≠ "") ∧ parseDate ("not-a-date") = none ∧
    formatDate ("not-a-date") = "not-a-date" :=
  ⟨by decide, by decide,
   formatDate_unparseable_identity ("not-a-date") (by decide) (by decide)⟩

/-- C7: a declined delete performs zero network calls and leaves the state
(hence the cached list) unchanged; a confirmed delete answered 2xx issues
exactly the one DELETE request (no list re-fetch) and removes exactly the
cached posts carrying the targeted id. -/
theorem delete_exactly_target (s : AppState) (pid : Nat) (status : Nat)
    (resp : SimpleResponse) (hok : isOk status = true) :
    (handleDeleteRun s pid false resp = ([], s)) ∧
    ((handleDeleteRun s pid true (SimpleResponse.reply status)).1 =
        [Request.deletePost s.authToken pid] ∧
     (handleDeleteRun s pid true (SimpleResponse.reply status)).2.posts =
        s.posts.filter (fun p => p.id ≠ pid) ∧
     (∀ p : Post, p ∈ (handleDeleteRun s pid true (SimpleResponse.reply status)).2.posts ↔
        (p ∈ s.posts ∧ p.id ≠ pid))) := by
  refine ⟨?_, ?_, ?_, ?_⟩
  · simp [handleDeleteRun]
  · simp [handleDeleteRun, hok]
  · simp [handleDeleteRun, hok]
  · simp [handleDeleteRun, hok, List.mem_filter]

/-- C7 witness: confirmed deletion of post 1 from the sample state removes
exactly that post. -/
theorem delete_exactly_target_witness :
    isOk 204 = true ∧
    ((handleDeleteRun demoState 1 false (SimpleResponse.reply 204) = ([], demoState)) ∧
     ((handleDeleteRun demoState 1 true (SimpleResponse.reply 204)).1 =
        [Request.deletePost demoState.authToken 1] ∧
      (handleDeleteRun demoState 1 true (SimpleResponse.reply 204)).2.posts =
        demoState.posts.filter (fun p => p.id ≠ 1) ∧
      (∀ p : Post, p ∈ (handleDeleteRun demoState 1 true (SimpleResponse.reply 204)).2.posts ↔
        (p ∈ demoState.posts ∧ p.id ≠ 1)))) :=
  ⟨by decide, delete_exactly_target demoState 1 204 (SimpleResponse.reply 204) (by decide)⟩

/-- C8: submitting the post form with an empty (whitespace-only) trimmed
title or description sets the validation error and issues no request; a
valid submission answered 2xx resets the form buffer and the editing id and
re-fetches the list - the new cache is whatever the re-fetch returns, not a
local splice. -/
theorem submit_validation_and_refetch (s : AppState) (resp : SimpleResponse)
    (listResp : ListResponse) (status st2 : Nat) (body : List Post) :
    ((jsTrim s.form.title = "" ∨ jsTrim s.form.description = "") →
       (handleSubmitRun s resp listResp).1 = [] ∧
       (handleSubmitRun s resp listResp).2.error = "Title and description are required.") ∧
    (jsTrim s.form.title ≠ "" → jsTrim s.form.description ≠ "" → s.authToken ≠ "" →
     isOk status = true →
       (handleSubmitRun s (SimpleResponse.reply status)
          (ListResponse.reply st2 body)).2.form = emptyPostForm ∧
       (handleSubmitRun s (SimpleResponse.reply status)
          (ListResponse.reply st2 body)).2.editingId = none ∧
       (handleSubmitRun s (SimpleResponse.reply status)
          (ListResponse.reply st2 body)).1 =
          [submitRequest s, Request.listPosts s.authToken] ∧
       (isOk st2 = true →
          (handleSubmitRun s (SimpleResponse.reply status)
             (ListResponse.reply st2 body)).2.posts = body)) := by
  constructor
  · intro hv
    simp [handleSubmitRun, hv]
  · intro h1 h2 h3 hok
    by_cases hok2 : isOk st2 = true
    · simp [handleSubmitRun, h1, h2, h3, hok, fetchPostsRun, resetForm, hok2, emptyPostForm]
    · have hko2 : isOk st2 = false := by
        cases hh : isOk st2
        · rfl
        · exact absurd hh hok2
      have hmse : mentionsSessionExpired ("Session expired. Please sign in again.") = true := by
        decide
      have hmsf : mentionsSessionExpired ("Failed to fetch posts.") = false := by decide
      by_cases h401 : st2 = 401
      · subst h401
        simp [handleSubmitRun, h1, h2, h3, hok, fetchPostsRun, resetForm, hko2, emptyPostForm,
          signedOutEffect, clearAuth, hmse]
      · simp [handleSubmitRun, h1, h2, h3, hok, fetchPostsRun, resetForm, hko2, h401,
          emptyPostForm, hmsf]

/-- C8 witness: a valid submission from the sample state, answered 201,
whose re-fetch returns a one-post list. -/
theorem submit_validation_and_refetch_witness :
    (jsTrim demoState.form.title ≠ "" ∧ jsTrim demoState.form.description ≠ "" ∧
     demoState.authToken ≠ "" ∧ isOk 201 = true) ∧
    ((handleSubmitRun demoState (SimpleResponse.reply 201)
        (ListResponse.reply 200 [demoPost1])).2.form = emptyPostForm ∧
     (handleSubmitRun demoState (SimpleResponse.reply 201)
        (ListResponse.reply 200 [demoPost1])).2.editingId = none ∧
     (handleSubmitRun demoState (SimpleResponse.reply 201)
        (ListResponse.reply 200 [demoPost1])).1 =
        [submitRequest demoState, Request.listPosts demoState.authToken] ∧
     (isOk 200 = true →
        (handleSubmitRun demoState (SimpleResponse.reply 201)
           (ListResponse.reply 200 [demoPost1])).2.posts = [demoPost1])) :=
  ⟨⟨by decide, by decide, by decide, by decide⟩,
   (submit_validation_and_refetch demoState (SimpleResponse.reply 201)
      (ListResponse.reply 200 [demoPost1]) 201 200 [demoPost1]).2
     (by decide) (by decide) (by decide) (by decide)⟩

/-- C9: a logout invocation with a non-empty token clears the persisted
token, the in-memory token and the user profile, whatever the network
outcome of the logout request (the handler never inspects it). -/
theorem logout_clears_session_unconditionally (s : AppState) (outcome : SimpleResponse)
    (h : s.authToken ≠ "") :
    (handleLogoutRun s outcome).2.authToken = "" ∧
    (handleLogoutRun s outcome).2.storedToken = "" ∧
    (handleLogoutRun s outcome).2.authUser = none := by
  simp [handleLogoutRun, h, signedOutEffect, clearAuth]

/-- C9 witness: logging out of the sample state against a 500 reply still
clears the session. -/
theorem logout_clears_session_unconditionally_witness :
    demoState.authToken ≠ "" ∧
    ((handleLogoutRun demoState (SimpleResponse.reply 500)).2.authToken = "" ∧
     (handleLogoutRun demoState (SimpleResponse.reply 500)).2.storedToken = "" ∧
     (handleLogoutRun demoState (SimpleResponse.reply 500)).2.authUser = none) :=
  ⟨by decide,
   logout_clears_session_unconditionally demoState (SimpleResponse.reply 500) (by decide)⟩

end PostsApp

namespace PostsApp

/-- Helper: the signed-out effect establishes the invariant outright. -/
lemma inv_signedOutEffect (s : AppState) : SignedOutEmpty (signedOutEffect s) := by
  intro _
  rfl

/-- Helper: `fetchPosts` preserves the signed-out invariant. -/
lemma inv_fetchPostsRun (s : AppState) (resp : ListResponse) (h : SignedOutEmpty s) :
    SignedOutEmpty (fetchPostsRun s resp).2 := by
  by_cases htok : s.authToken = ""
  · simp [fetchPostsRun, htok, SignedOutEmpty] at h ⊢
    exact h
  · cases resp with
    | reply status body =>
        by_cases hok : isOk status = true
        · simp [fetchPostsRun, htok, hok, SignedOutEmpty]
        · simp only [fetchPostsRun, if_neg htok, hok, Bool.false_eq_true, if_false]
          split
          · intro _; rfl
          · intro hcontra
            exact absurd hcontra htok
    | networkError msg =>
        simp only [fetchPostsRun, if_neg htok]
        split
        · intro _; rfl
        · intro hcontra
          exact absurd hcontra htok

/-- Helper: `fetchMe` preserves the signed-out invariant. -/
lemma inv_fetchMeRun (s : AppState) (resp : MeResponse) (h : SignedOutEmpty s) :
    SignedOutEmpty (fetchMeRun s resp).2 := by
  by_cases htok : s.authToken = ""
  · simpa [fetchMeRun, htok] using h
  · cases resp with
    | reply status body =>
        by_cases hok : isOk status = true
        · intro hcontra
          simp [fetchMeRun, htok, hok] at hcontra
        · simp [fetchMeRun, htok, hok, signedOutEffect, SignedOutEmpty]
    | networkError msg =>
        simp [fetchMeRun, htok, signedOutEffect, SignedOutEmpty]

/-- Helper: `handleAuthSubmit` preserves the signed-out invariant. -/
lemma inv_handleAuthSubmitRun (s : AppState) (resp : AuthResponse) (h : SignedOutEmpty s) :
    SignedOutEmpty (handleAuthSubmitRun s resp).2 := by
  cases resp with
  | networkError msg => simpa [handleAuthSubmitRun, SignedOutEmpty] using h
  | reply status body =>
      by_cases hok : isOk status = true
      · by_cases htk : extractToken body = ""
        · simpa [handleAuthSubmitRun, hok, htk, SignedOutEmpty] using h
        · intro hcontra
          simp [handleAuthSubmitRun, hok, htk] at hcontra
      · simpa [handleAuthSubmitRun, hok, SignedOutEmpty] using h

/-- Helper: `handleLogout` preserves the signed-out invariant. -/
lemma inv_handleLogoutRun (s : AppState) (outcome : SimpleResponse) (h : SignedOutEmpty s) :
    SignedOutEmpty (handleLogoutRun s outcome).2 := by
  by_cases htok : s.authToken = ""
  · simpa [handleLogoutRun, htok] using h
  · simp [handleLogoutRun, htok, signedOutEffect, SignedOutEmpty]

/-- Helper: `handleDelete` preserves the signed-out invariant (filtering an
empty cache leaves it empty). -/
lemma inv_handleDeleteRun (s : AppState) (postId : Nat) (confirmed : Bool)
    (resp : SimpleResponse) (h : SignedOutEmpty s) :
    SignedOutEmpty (handleDeleteRun s postId confirmed resp).2 := by
  by_cases hc : confirmed
  · cases resp with
    | reply status =>
        by_cases hok : isOk status = true
        · intro hcontra
          simp [handleDeleteRun, hc, hok] at hcontra
          have hp : s.posts = [] := h hcontra
          simp [handleDeleteRun, hc, hok, hp]
        · simpa [handleDeleteRun, hc, hok, SignedOutEmpty] using h
    | networkError msg => simpa [handleDeleteRun, hc, SignedOutEmpty] using h
  · simpa [handleDeleteRun, hc] using h

/-- Helper: `handleSubmit` preserves the signed-out invariant (its re-fetch
inherits the guarantee of `fetchPosts`). -/
lemma inv_handleSubmitRun (s : AppState) (resp : SimpleResponse) (listResp : ListResponse)
    (h : SignedOutEmpty s) :
    SignedOutEmpty (handleSubmitRun s resp listResp).2 := by
  by_cases hv : jsTrim s.form.title = "" ∨ jsTrim s.form.description = ""
  · simpa [handleSubmitRun, hv, SignedOutEmpty] using h
  · by_cases htok : s.authToken = ""
    · simpa [handleSubmitRun, hv, htok, SignedOutEmpty] using h
    · cases resp with
      | reply status =>
          by_cases hok : isOk status = true
          · have hinner := inv_fetchPostsRun
              (resetForm { s with isSaving := true, error := "" }) listResp
              (by intro hcontra; exact absurd hcontra htok)
            intro hcontra
            simp only [handleSubmitRun, if_neg hv, if_neg htok, hok, if_true] at hcontra ⊢
            exact hinner hcontra
          · simp [handleSubmitRun, hv, htok, hok, SignedOutEmpty]
      | networkError msg => simp [handleSubmitRun, hv, htok, SignedOutEmpty]

/-- C10: in every reachable component state, an empty held token means an
empty cached post list - the signed-out view never retains previously
fetched posts.  Holds initially and is preserved by every event step. -/
theorem reachable_signed_out_no_posts (s : AppState) (h : Reachable s) :
    s.authToken = "" → s.posts = [] := by
  induction h with
  | init stored => intro _; rfl
  | step hr hst ih =>
      cases hst with
      | signedOut h0 => exact inv_signedOutEffect _
      | fetchPosts resp => exact inv_fetchPostsRun _ resp ih
      | fetchMe resp => exact inv_fetchMeRun _ resp ih
      | authSubmit resp => exact inv_handleAuthSubmitRun _ resp ih
      | logout outcome => exact inv_handleLogoutRun _ outcome ih
      | submit resp listResp => exact inv_handleSubmitRun _ resp listResp ih
      | delete postId confirmed resp => exact inv_handleDeleteRun _ postId confirmed resp ih
      | edit p => simpa [handleEditRun, SignedOutEmpty] using ih
      | cancelEdit => simpa [resetForm, SignedOutEmpty] using ih
      | authModeSwitch mode => simpa [handleAuthModeRun, SignedOutEmpty] using ih
      | changeTitle v => exact ih
      | changeDescription v => exact ih
      | authChangeName v => exact ih
      | authChangeEmail v => exact ih
      | authChangePassword v => exact ih
      | authChangeConfirmation v => exact ih

/-- C10 witness: the freshly mounted state with no persisted token is
reachable, signed out, and has no cached posts. -/
theorem reachable_signed_out_no_posts_witness :
    (initState ("")).authToken = "" ∧ (initState ("")).posts = [] :=
  ⟨rfl, reachable_signed_out_no_posts (initState ("")) (Reachable.init ("")) rfl⟩

end PostsApp
